import Mathlib

/-!
Shallow embedding of `src/controller/v1/account/account.go` from the
`go-rest-api` repository: a CRUD controller (Get / Register / Update /
Delete) for a user account resource.

The controller's external collaborators — JWT extraction (`jwt.ExtractID`),
JSON binding (`rest.BindJSON`), structural validation
(`validation.Validator.Struct`), and the account service
(`account.Servicer`) — live outside the inspected source.  Each controller
operation is therefore embedded as a pure function taking the outcome of
each collaborator call as an argument, and returning the HTTP response it
writes together with the list of service invocations it performs (so that
claims about the service being called, or not, are statable).  Logging is
a side effect the spec excludes and is dropped.
-/

namespace GoRestApi

/-- Error constants of package `go-rest-api/src/constant` that the
controller compares service errors against with `errors.Is`, or whose
`Error()` text it places into response bodies.  Only their identity and
message text matter to the controller. -/
inductive ErrKind where
  | ErrInvalidFormat
  | ErrAccountExist
  | ErrAccountNotRegistered
  | ErrUsernameCannotBeEmpty
  | ErrPasswordCannotBeEmpty
  | ErrUsernameAlreadyExist
  | ErrEmailAlreadyExist
  | ErrKTPNumberAlreadyExist
  | ErrPhoneNumberAlreadyExist
  | ErrInvalidDOBFormat
  deriving DecidableEq, Repr

/-- A non-nil Go `error` value as the controller observes it: for each
error constant, whether `errors.Is err constant` holds, plus the text of
`err.Error()` (used only in log lines, which the spec excludes).  A nil
error is represented by `none` at the call sites. -/
structure GoError where
  isKind : ErrKind → Bool
  msg : String

/-- A Go error that is exactly one of the enumerated constants: the
`errors.Is` check holds for that constant and fails for every other. -/
def GoError.exactly (k : ErrKind) (m : String) : GoError :=
  ⟨fun j => j == k, m⟩

/-- The body of an HTTP response the controller writes.
`statusText` stands for `rest.ResponseMessage` (a generic body derived
from the status code alone, carrying no request- or error-specific data);
`fields` for `rest.ResponseError` with a `map[string]string`;
`validationDetail` for `rest.ResponseError` applied to the validator's
error value; `payload` for `rest.ResponseData`. -/
inductive RespBody (View VErr : Type) where
  | statusText : RespBody View VErr
  | fields : List (String × String) → RespBody View VErr
  | validationDetail : VErr → RespBody View VErr
  | payload : View → RespBody View VErr
  deriving DecidableEq

/-- The strings a response body carries that the controller itself chose
(keys and values of a `fields` map).  `statusText` carries none; the
`payload` and `validationDetail` constructors carry collaborator data,
not controller-chosen strings. -/
def RespBody.ownStrings {View VErr : Type} : RespBody View VErr → List String
  | .fields l => l.map Prod.fst ++ l.map Prod.snd
  | _ => []

/-- The field keys of a `fields` response body. -/
def RespBody.fieldKeys {View VErr : Type} : RespBody View VErr → List String
  | .fields l => l.map Prod.fst
  | _ => []

/-- An HTTP response: status code and body. -/
structure Response (View VErr : Type) where
  status : Nat
  body : RespBody View VErr
  deriving DecidableEq

/-- net/http status constants used by the controller. -/
def StatusOK : Nat := 200

def StatusCreated : Nat := 201

def StatusBadRequest : Nat := 400

def StatusUnauthorized : Nat := 401

def StatusConflict : Nat := 409

def StatusInternalServerError : Nat := 500

/-- Embedding of `strings.ToLower` as a character-wise lowercase map
over the string's characters (the controller applies it only to the
username field). -/
def stringsToLower (s : String) : String :=
  ⟨s.data.map Char.toLower⟩

/-- Modelled from the spec: the `http.RegisterUser` entity is declared
outside the inspected source; per the spec a RegisterRequest carries a
username plus other user-supplied fields required for account creation,
abstracted here as a single field of type `O`. -/
structure RegisterUser (O : Type) where
  Username : String
  others : O
  deriving DecidableEq, Repr

namespace Account

variable {ID View VErr U O : Type}

/-- Embedding of `Controller.Get` (account.go lines 40 to 55).
`extractID` is the outcome of `jwt.ExtractID` on the Authorization
header; `takeAccountByID` the outcome of `svc.TakeAccountByID`.
Returns the response and the list of account ids the service was
invoked with. -/
def Get (extractID : Except Unit ID)
    (takeAccountByID : ID → Except GoError View) :
    Response View VErr × List ID :=
  match extractID with
  | .error _ => (⟨StatusUnauthorized, .statusText⟩, [])
  | .ok accountID =>
    match takeAccountByID accountID with
    | .error _ => (⟨StatusInternalServerError, .statusText⟩, [accountID])
    | .ok response => (⟨StatusOK, .payload response⟩, [accountID])

/-- Embedding of `Controller.Register` (account.go lines 67 to 93).
`errMsg` gives the `Error()` text of each error constant; `bindJSON` is
the outcome of `rest.BindJSON`, `validateStruct` of
`validation.Validator.Struct`, and `create` of `svc.Create`.  Returns
the response and the list of requests submitted to the service. -/
def Register (errMsg : ErrKind → String)
    (bindJSON : Except Unit (RegisterUser O))
    (validateStruct : RegisterUser O → Option VErr)
    (create : RegisterUser O → Option GoError) :
    Response View VErr × List (RegisterUser O) :=
  match bindJSON with
  | .error _ =>
    (⟨StatusBadRequest, .fields [("body", errMsg .ErrInvalidFormat)]⟩, [])
  | .ok req0 =>
    match validateStruct req0 with
    | some e => (⟨StatusBadRequest, .validationDetail e⟩, [])
    | none =>
      let req : RegisterUser O := { req0 with Username := stringsToLower req0.Username }
      match create req with
      | some err =>
        if err.isKind .ErrAccountExist then
          (⟨StatusConflict, .fields [("account", errMsg .ErrAccountExist)]⟩, [req])
        else
          (⟨StatusInternalServerError, .statusText⟩, [req])
      | none => (⟨StatusCreated, .statusText⟩, [req])

/-- Embedding of `Controller.Update` (account.go lines 105 to 170).
Binding and validation run before token extraction, exactly as in the
source.  Returns the response and the list of `(accountID, request)`
pairs sent to `svc.Update`. -/
def Update (errMsg : ErrKind → String)
    (bindJSON : Except Unit U)
    (validateStruct : U → Option VErr)
    (extractID : Except Unit ID)
    (svcUpdate : ID → U → Option GoError) :
    Response View VErr × List (ID × U) :=
  match bindJSON with
  | .error _ =>
    (⟨StatusBadRequest, .fields [("body", errMsg .ErrInvalidFormat)]⟩, [])
  | .ok request =>
    match validateStruct request with
    | some e => (⟨StatusBadRequest, .validationDetail e⟩, [])
    | none =>
      match extractID with
      | .error _ => (⟨StatusUnauthorized, .statusText⟩, [])
      | .ok accountID =>
        match svcUpdate accountID request with
        | some err =>
          if err.isKind .ErrAccountNotRegistered then
            (⟨StatusBadRequest,
              .fields [("accounts", errMsg .ErrAccountNotRegistered)]⟩,
             [(accountID, request)])
          else if err.isKind .ErrUsernameCannotBeEmpty then
            (⟨StatusBadRequest,
              .fields [("accounts", errMsg .ErrUsernameCannotBeEmpty)]⟩,
             [(accountID, request)])
          else if err.isKind .ErrPasswordCannotBeEmpty then
            (⟨StatusBadRequest,
              .fields [("accounts", errMsg .ErrPasswordCannotBeEmpty)]⟩,
             [(accountID, request)])
          else if err.isKind .ErrUsernameAlreadyExist then
            (⟨StatusBadRequest,
              .fields [("accounts", errMsg .ErrUsernameAlreadyExist)]⟩,
             [(accountID, request)])
          else if err.isKind .ErrEmailAlreadyExist then
            (⟨StatusBadRequest,
              .fields [("accounts", errMsg .ErrEmailAlreadyExist)]⟩,
             [(accountID, request)])
          else if err.isKind .ErrKTPNumberAlreadyExist then
            (⟨StatusBadRequest,
              .fields [("accounts", errMsg .ErrKTPNumberAlreadyExist)]⟩,
             [(accountID, request)])
          else if err.isKind .ErrPhoneNumberAlreadyExist then
            (⟨StatusBadRequest,
              .fields [("accounts", errMsg .ErrPhoneNumberAlreadyExist)]⟩,
             [(accountID, request)])
          else if err.isKind .ErrInvalidDOBFormat then
            (⟨StatusBadRequest,
              .fields [("accounts", errMsg .ErrInvalidDOBFormat)]⟩,
             [(accountID, request)])
          else
            (⟨StatusInternalServerError, .statusText⟩, [(accountID, request)])
        | none => (⟨StatusOK, .statusText⟩, [(accountID, request)])

/-- Embedding of `Controller.Delete` (account.go lines 182 to 202).
Returns the response and the list of account ids sent to `svc.Delete`. -/
def Delete (errMsg : ErrKind → String)
    (extractID : Except Unit ID)
    (svcDelete : ID → Option GoError) :
    Response View VErr × List ID :=
  match extractID with
  | .error _ => (⟨StatusUnauthorized, .statusText⟩, [])
  | .ok accountID =>
    match svcDelete accountID with
    | some err =>
      if err.isKind .ErrAccountNotRegistered then
        (⟨StatusBadRequest,
          .fields [("accounts", errMsg .ErrAccountNotRegistered)]⟩,
         [accountID])
      else
        (⟨StatusInternalServerError, .statusText⟩, [accountID])
    | none => (⟨StatusOK, .statusText⟩, [accountID])

/-- The eight domain error kinds `Controller.Update` matches against, in
the order of the `errors.Is` chain of account.go lines 131 to 163. -/
def updateDomainKinds : List ErrKind :=
  [.ErrAccountNotRegistered, .ErrUsernameCannotBeEmpty,
   .ErrPasswordCannotBeEmpty, .ErrUsernameAlreadyExist,
   .ErrEmailAlreadyExist, .ErrKTPNumberAlreadyExist,
   .ErrPhoneNumberAlreadyExist, .ErrInvalidDOBFormat]

/-- The service-error mapping of Update as the spec states it: a lookup
of the service error over the closed set of domain error kinds, each
mapped to BadRequest with its field-scoped message; any unmatched error
mapped to a generic Internal response; success mapped to OK. -/
def updateSpecResponse {View VErr : Type} (errMsg : ErrKind → String) :
    Option GoError → Response View VErr
  | none => ⟨StatusOK, .statusText⟩
  | some err =>
    match updateDomainKinds.find? (fun k => err.isKind k) with
    | some k => ⟨StatusBadRequest, .fields [("accounts", errMsg k)]⟩
    | none => ⟨StatusInternalServerError, .statusText⟩

end Account

/-- C1 counterexample: the claim says a failed token extraction yields
401 regardless of the request body, but in `Controller.Update` JSON
binding runs first, so a request whose body fails to bind and whose
Authorization header is invalid is answered with 400 BadRequest, not
401. -/
theorem update_bind_failure_masks_unauthenticated :
    (Account.Update (fun _ => "invalid format") (Except.error ())
        (fun _ => none) (Except.error ()) (fun _ _ => none) :
      Response Unit Unit × List (Nat × Unit)).1.status = StatusBadRequest ∧
    StatusBadRequest ≠ StatusUnauthorized := by
  exact ⟨rfl, by decide⟩

/-- C1 (amended): a Get or Delete request whose token extraction fails is
answered exactly 401 with the generic body, never 400 or 500; an Update
request whose token extraction fails is answered 401 provided its body
binds and validates successfully (binding or validation failure takes
precedence and yields 400). -/
theorem token_extraction_failure_yields_unauthenticated
    {ID View VErr U : Type} (errMsg : ErrKind → String)
    (take : ID → Except GoError View) (svcDel : ID → Option GoError)
    (bindJSON : Except Unit U) (validateStruct : U → Option VErr)
    (svcUpd : ID → U → Option GoError) (u : U)
    (hbind : bindJSON = Except.ok u) (hval : validateStruct u = none) :
    (Account.Get (Except.error ()) take :
        Response View VErr × List ID).1 = ⟨StatusUnauthorized, .statusText⟩ ∧
    (Account.Delete errMsg (Except.error ()) svcDel :
        Response View VErr × List ID).1 = ⟨StatusUnauthorized, .statusText⟩ ∧
    (Account.Update errMsg bindJSON validateStruct (Except.error ()) svcUpd :
        Response View VErr × List (ID × U)).1
      = ⟨StatusUnauthorized, .statusText⟩ ∧
    StatusUnauthorized ≠ StatusBadRequest ∧
    StatusUnauthorized ≠ StatusInternalServerError := by
  subst hbind
  refine ⟨rfl, rfl, ?_, by decide, by decide⟩
  simp [Account.Update, hval]

/-- Witness for the amended C1 theorem at concrete collaborators. -/
theorem token_extraction_failure_yields_unauthenticated_witness :
    (Account.Get (Except.error ()) (fun i : Nat => Except.ok i) :
        Response Nat Unit × List Nat).1 = ⟨StatusUnauthorized, .statusText⟩ ∧
    (Account.Delete (fun _ => "") (Except.error ()) (fun _ : Nat => none) :
        Response Nat Unit × List Nat).1 = ⟨StatusUnauthorized, .statusText⟩ ∧
    (Account.Update (fun _ => "") (Except.ok ()) (fun _ => none)
        (Except.error ()) (fun _ _ => none) :
        Response Nat Unit × List (Nat × Unit)).1
      = ⟨StatusUnauthorized, .statusText⟩ ∧
    StatusUnauthorized ≠ StatusBadRequest ∧
    StatusUnauthorized ≠ StatusInternalServerError :=
  token_extraction_failure_yields_unauthenticated
    (fun _ => "") (fun i : Nat => Except.ok i) (fun _ => none)
    (Except.ok ()) (fun _ => none) (fun _ _ => none) () rfl rfl

/-- C3: when the body binds and validates, the request submitted to
`svc.Create` is the bound request with its username lowercased and every
other field unchanged, and the service is invoked exactly once with it. -/
theorem register_lowercases_username
    {View VErr O : Type} (errMsg : ErrKind → String)
    (bindJSON : Except Unit (RegisterUser O))
    (validateStruct : RegisterUser O → Option VErr)
    (create : RegisterUser O → Option GoError) (req : RegisterUser O)
    (hbind : bindJSON = Except.ok req) (hval : validateStruct req = none) :
    (Account.Register errMsg bindJSON validateStruct create :
        Response View VErr × List (RegisterUser O)).2
      = [⟨stringsToLower req.Username, req.others⟩] := by
  subst hbind
  simp only [Account.Register, hval]
  cases hc : create { req with Username := stringsToLower req.Username } with
  | none => rfl
  | some err => cases h : err.isKind .ErrAccountExist <;> simp [h]

/-- Witness for C3 at concrete collaborators: an uppercase username is
submitted lowercased. -/
theorem register_lowercases_username_witness :
    (Account.Register (fun _ => "") (Except.ok ⟨"AbC", 7⟩)
        (fun _ => none) (fun _ => none) :
        Response Unit Unit × List (RegisterUser Nat)).2 = [⟨"abc", 7⟩] := by
  have h := @register_lowercases_username Unit Unit Nat (fun _ => "")
    (Except.ok ⟨"AbC", 7⟩) (fun _ => none) (fun _ => none) ⟨"AbC", 7⟩ rfl rfl
  have e : stringsToLower "AbC" = "abc" := by decide
  simpa [e] using h

/-- C5: a Register request whose body fails to bind, or binds but fails
structural validation, is answered 400 BadRequest and `svc.Create` is
never invoked. -/
theorem register_prevalidation_failure_no_service_call
    {View VErr O : Type} (errMsg : ErrKind → String)
    (validateStruct : RegisterUser O → Option VErr)
    (create : RegisterUser O → Option GoError) :
    ((Account.Register errMsg (Except.error ()) validateStruct create :
        Response View VErr × List (RegisterUser O)).1.status = StatusBadRequest ∧
     (Account.Register errMsg (Except.error ()) validateStruct create :
        Response View VErr × List (RegisterUser O)).2 = []) ∧
    (∀ (req : RegisterUser O) (e : VErr), validateStruct req = some e →
      (Account.Register errMsg (Except.ok req) validateStruct create :
          Response View VErr × List (RegisterUser O)).1.status = StatusBadRequest ∧
      (Account.Register errMsg (Except.ok req) validateStruct create :
          Response View VErr × List (RegisterUser O)).2 = []) := by
  refine ⟨⟨rfl, rfl⟩, ?_⟩
  intro req e hv
  simp [Account.Register, hv]

/-- Witness for C5 at concrete collaborators. -/
theorem register_prevalidation_failure_no_service_call_witness :
    ((Account.Register (fun _ => "") (Except.error ())
        (fun _ : RegisterUser Nat => some 0) (fun _ => none) :
        Response Unit Nat × List (RegisterUser Nat)).1.status = StatusBadRequest ∧
     (Account.Register (fun _ => "") (Except.error ())
        (fun _ : RegisterUser Nat => some 0) (fun _ => none) :
        Response Unit Nat × List (RegisterUser Nat)).2 = []) ∧
    ((Account.Register (fun _ => "") (Except.ok ⟨"a", 1⟩)
        (fun _ : RegisterUser Nat => some 0) (fun _ => none) :
        Response Unit Nat × List (RegisterUser Nat)).1.status = StatusBadRequest ∧
     (Account.Register (fun _ => "") (Except.ok ⟨"a", 1⟩)
        (fun _ : RegisterUser Nat => some 0) (fun _ => none) :
        Response Unit Nat × List (RegisterUser Nat)).2 = []) :=
  ⟨(register_prevalidation_failure_no_service_call (fun _ => "")
      (fun _ => some 0) (fun _ => none)).1,
   (register_prevalidation_failure_no_service_call (fun _ => "")
      (fun _ => some 0) (fun _ => none)).2 ⟨"a", 1⟩ 0 rfl⟩

/-- C6: a Get request is answered 401 when token extraction fails, 500
when the service lookup fails, and otherwise 200 carrying the account
view returned by the service, unmodified. -/
theorem get_response_mapping {ID View VErr : Type}
    (extractID : Except Unit ID) (take : ID → Except GoError View) :
    (extractID = Except.error () →
      (Account.Get extractID take : Response View VErr × List ID).1
        = ⟨StatusUnauthorized, .statusText⟩) ∧
    (∀ (i : ID) (err : GoError), extractID = Except.ok i →
      take i = Except.error err →
      (Account.Get extractID take : Response View VErr × List ID).1
        = ⟨StatusInternalServerError, .statusText⟩) ∧
    (∀ (i : ID) (v : View), extractID = Except.ok i → take i = Except.ok v →
      (Account.Get extractID take : Response View VErr × List ID).1
        = ⟨StatusOK, .payload v⟩) := by
  refine ⟨?_, ?_, ?_⟩
  · rintro rfl; rfl
  · rintro i err rfl h; simp [Account.Get, h]
  · rintro i v rfl h; simp [Account.Get, h]

/-- Witness for C6 at concrete collaborators: a successful lookup is
returned as the 200 payload unmodified. -/
theorem get_response_mapping_witness :
    (Account.Get (Except.ok 5) (fun i : Nat => Except.ok (i + 1)) :
        Response Nat Unit × List Nat).1 = ⟨StatusOK, .payload 6⟩ :=
  (get_response_mapping (Except.ok 5) (fun i => Except.ok (i + 1))).2.2 5 6
    rfl rfl

/-- C7: a Delete request that passes token extraction is answered 400
with the not-registered message when the service reports not-registered,
500 on any other service error, and 200 on success. -/
theorem delete_response_mapping {ID View VErr : Type}
    (errMsg : ErrKind → String) (i : ID) (svcDel : ID → Option GoError) :
    (∀ err : GoError, svcDel i = some err →
      err.isKind .ErrAccountNotRegistered = true →
      (Account.Delete errMsg (Except.ok i) svcDel :
          Response View VErr × List ID).1
        = ⟨StatusBadRequest,
           .fields [("accounts", errMsg .ErrAccountNotRegistered)]⟩) ∧
    (∀ err : GoError, svcDel i = some err →
      err.isKind .ErrAccountNotRegistered = false →
      (Account.Delete errMsg (Except.ok i) svcDel :
          Response View VErr × List ID).1
        = ⟨StatusInternalServerError, .statusText⟩) ∧
    (svcDel i = none →
      (Account.Delete errMsg (Except.ok i) svcDel :
          Response View VErr × List ID).1 = ⟨StatusOK, .statusText⟩) := by
  refine ⟨?_, ?_, ?_⟩
  · intro err h hk; simp [Account.Delete, h, hk]
  · intro err h hk; simp [Account.Delete, h, hk]
  · intro h; simp [Account.Delete, h]

/-- Witness for C7 at concrete collaborators. -/
theorem delete_response_mapping_witness :
    (Account.Delete (fun _ => "m") (Except.ok 3)
        (fun _ : Nat => some (GoError.exactly .ErrAccountNotRegistered "x")) :
        Response Unit Unit × List Nat).1
      = ⟨StatusBadRequest, .fields [("accounts", "m")]⟩ :=
  (delete_response_mapping (fun _ => "m") 3
      (fun _ => some (GoError.exactly .ErrAccountNotRegistered "x"))).1
    (GoError.exactly .ErrAccountNotRegistered "x") rfl rfl

/-- C4: a Register request that reaches the service is answered 409 with
the account-exists message when the service reports the account already
exists, 500 on any other service error, and 201 on success. -/
theorem register_service_result_mapping {View VErr O : Type}
    (errMsg : ErrKind → String)
    (bindJSON : Except Unit (RegisterUser O))
    (validateStruct : RegisterUser O → Option VErr)
    (create : RegisterUser O → Option GoError) (req : RegisterUser O)
    (hbind : bindJSON = Except.ok req) (hval : validateStruct req = none) :
    (∀ err : GoError,
      create { req with Username := stringsToLower req.Username } = some err →
      err.isKind .ErrAccountExist = true →
      (Account.Register errMsg bindJSON validateStruct create :
          Response View VErr × List (RegisterUser O)).1
        = ⟨StatusConflict, .fields [("account", errMsg .ErrAccountExist)]⟩) ∧
    (∀ err : GoError,
      create { req with Username := stringsToLower req.Username } = some err →
      err.isKind .ErrAccountExist = false →
      (Account.Register errMsg bindJSON validateStruct create :
          Response View VErr × List (RegisterUser O)).1
        = ⟨StatusInternalServerError, .statusText⟩) ∧
    (create { req with Username := stringsToLower req.Username } = none →
      (Account.Register errMsg bindJSON validateStruct create :
          Response View VErr × List (RegisterUser O)).1
        = ⟨StatusCreated, .statusText⟩) := by
  subst hbind
  refine ⟨?_, ?_, ?_⟩
  · intro err hc hk; simp [Account.Register, hval, hc, hk]
  · intro err hc hk; simp [Account.Register, hval, hc, hk]
  · intro hc; simp [Account.Register, hval, hc]

/-- Witness for C4 at concrete collaborators: a duplicate account is
answered 409. -/
theorem register_service_result_mapping_witness :
    (Account.Register (fun _ => "exists") (Except.ok ⟨"a", 0⟩)
        (fun _ : RegisterUser Nat => none)
        (fun _ => some (GoError.exactly .ErrAccountExist "dup")) :
        Response Unit Unit × List (RegisterUser Nat)).1
      = ⟨StatusConflict, .fields [("account", "exists")]⟩ :=
  (register_service_result_mapping (fun _ => "exists") (Except.ok ⟨"a", 0⟩)
      (fun _ => none) (fun _ => some (GoError.exactly .ErrAccountExist "dup"))
      ⟨"a", 0⟩ rfl rfl).1
    (GoError.exactly .ErrAccountExist "dup") rfl rfl

/-- C2: an Update request that passes binding, validation and token
extraction is answered exactly as the spec's lookup-table semantics
`updateSpecResponse` prescribes: a service error matching one of the
eight enumerated domain kinds yields 400 with that kind's message under
the `accounts` field, any other service error yields the generic 500
body, and success yields 200.  Moreover the 500 body carries no
controller-chosen strings at all, in particular not the service error's
message. -/
theorem update_service_error_mapping {ID View VErr U : Type}
    (errMsg : ErrKind → String) (bindJSON : Except Unit U)
    (validateStruct : U → Option VErr) (extractID : Except Unit ID)
    (svcUpd : ID → U → Option GoError) (u : U) (i : ID)
    (hbind : bindJSON = Except.ok u) (hval : validateStruct u = none)
    (hext : extractID = Except.ok i) :
    (Account.Update errMsg bindJSON validateStruct extractID svcUpd :
        Response View VErr × List (ID × U)).1
      = Account.updateSpecResponse errMsg (svcUpd i u) ∧
    (∀ k ∈ Account.updateDomainKinds, ∀ m : String,
      svcUpd i u = some (GoError.exactly k m) →
      (Account.Update errMsg bindJSON validateStruct extractID svcUpd :
          Response View VErr × List (ID × U)).1
        = ⟨StatusBadRequest, .fields [("accounts", errMsg k)]⟩) ∧
    (∀ err : GoError, svcUpd i u = some err →
      (∀ k ∈ Account.updateDomainKinds, err.isKind k = false) →
      err.msg ∉
        ((Account.Update errMsg bindJSON validateStruct extractID svcUpd :
            Response View VErr × List (ID × U)).1.body).ownStrings) := by
  subst hbind; subst hext
  refine ⟨?_, ?_, ?_⟩
  case refine_2 =>
    intro k hk m hsvc
    simp only [Account.updateDomainKinds, List.mem_cons,
      List.not_mem_nil, or_false] at hk
    rcases hk with rfl | rfl | rfl | rfl | rfl | rfl | rfl | rfl <;>
      simp [Account.Update, GoError.exactly, hval, hsvc]
  · cases hsvc : svcUpd i u with
    | none => simp [Account.Update, Account.updateSpecResponse, hval, hsvc]
    | some err =>
      cases h1 : err.isKind .ErrAccountNotRegistered <;>
      cases h2 : err.isKind .ErrUsernameCannotBeEmpty <;>
      cases h3 : err.isKind .ErrPasswordCannotBeEmpty <;>
      cases h4 : err.isKind .ErrUsernameAlreadyExist <;>
      cases h5 : err.isKind .ErrEmailAlreadyExist <;>
      cases h6 : err.isKind .ErrKTPNumberAlreadyExist <;>
      cases h7 : err.isKind .ErrPhoneNumberAlreadyExist <;>
      cases h8 : err.isKind .ErrInvalidDOBFormat <;>
      simp [Account.Update, Account.updateSpecResponse,
        Account.updateDomainKinds, List.find?, hval, hsvc,
        h1, h2, h3, h4, h5, h6, h7, h8]
  · intro err hsvc hfalse
    have h1 := hfalse .ErrAccountNotRegistered (by simp [Account.updateDomainKinds])
    have h2 := hfalse .ErrUsernameCannotBeEmpty (by simp [Account.updateDomainKinds])
    have h3 := hfalse .ErrPasswordCannotBeEmpty (by simp [Account.updateDomainKinds])
    have h4 := hfalse .ErrUsernameAlreadyExist (by simp [Account.updateDomainKinds])
    have h5 := hfalse .ErrEmailAlreadyExist (by simp [Account.updateDomainKinds])
    have h6 := hfalse .ErrKTPNumberAlreadyExist (by simp [Account.updateDomainKinds])
    have h7 := hfalse .ErrPhoneNumberAlreadyExist (by simp [Account.updateDomainKinds])
    have h8 := hfalse .ErrInvalidDOBFormat (by simp [Account.updateDomainKinds])
    simp [Account.Update, RespBody.ownStrings, hval, hsvc,
      h1, h2, h3, h4, h5, h6, h7, h8]

/-- Witness for C2 at concrete collaborators: an unmatched service error
is answered with the spec's generic Internal response, whose body holds
no strings. -/
theorem update_service_error_mapping_witness :
    (Account.Update (fun _ => "m") (Except.ok ()) (fun _ => none)
        (Except.ok 2) (fun _ _ => some ⟨fun _ => false, "secret"⟩) :
        Response Unit Unit × List (Nat × Unit)).1
      = Account.updateSpecResponse (fun _ => "m")
          (some ⟨fun _ => false, "secret"⟩) ∧
    "secret" ∉
      ((Account.Update (fun _ => "m") (Except.ok ()) (fun _ => none)
          (Except.ok 2) (fun _ _ => some ⟨fun _ => false, "secret"⟩) :
          Response Unit Unit × List (Nat × Unit)).1.body).ownStrings :=
  ⟨(update_service_error_mapping (fun _ => "m") (Except.ok ()) (fun _ => none)
      (Except.ok 2) (fun _ _ => some ⟨fun _ => false, "secret"⟩) () 2
      rfl rfl rfl).1,
   (update_service_error_mapping (fun _ => "m") (Except.ok ()) (fun _ => none)
      (Except.ok 2) (fun _ _ => some ⟨fun _ => false, "secret"⟩) () 2
      rfl rfl rfl).2.2 ⟨fun _ => false, "secret"⟩ rfl (fun _ _ => rfl)⟩

/-- C8: when the service reports exactly the username-already-exists
error, Update answers 400 with that error's message under the `accounts`
field, and — provided the two constants' message texts differ — this
body differs from the one produced for email-already-exists. -/
theorem update_username_email_conflict_distinct {ID View VErr U : Type}
    (errMsg : ErrKind → String) (bindJSON : Except Unit U)
    (validateStruct : U → Option VErr) (extractID : Except Unit ID)
    (u : U) (i : ID) (mU mE : String)
    (hbind : bindJSON = Except.ok u) (hval : validateStruct u = none)
    (hext : extractID = Except.ok i)
    (hmsg : errMsg .ErrUsernameAlreadyExist ≠ errMsg .ErrEmailAlreadyExist) :
    (Account.Update errMsg bindJSON validateStruct extractID
        (fun _ _ => some (GoError.exactly .ErrUsernameAlreadyExist mU)) :
        Response View VErr × List (ID × U)).1
      = ⟨StatusBadRequest,
         .fields [("accounts", errMsg .ErrUsernameAlreadyExist)]⟩ ∧
    (Account.Update errMsg bindJSON validateStruct extractID
        (fun _ _ => some (GoError.exactly .ErrEmailAlreadyExist mE)) :
        Response View VErr × List (ID × U)).1
      = ⟨StatusBadRequest,
         .fields [("accounts", errMsg .ErrEmailAlreadyExist)]⟩ ∧
    ((Account.Update errMsg bindJSON validateStruct extractID
        (fun _ _ => some (GoError.exactly .ErrUsernameAlreadyExist mU)) :
        Response View VErr × List (ID × U)).1.body
      ≠ (Account.Update errMsg bindJSON validateStruct extractID
          (fun _ _ => some (GoError.exactly .ErrEmailAlreadyExist mE)) :
          Response View VErr × List (ID × U)).1.body) := by
  subst hbind; subst hext
  have hU : (Account.Update errMsg (Except.ok u) validateStruct (Except.ok i)
      (fun _ _ => some (GoError.exactly .ErrUsernameAlreadyExist mU)) :
      Response View VErr × List (ID × U)).1
      = ⟨StatusBadRequest,
         .fields [("accounts", errMsg .ErrUsernameAlreadyExist)]⟩ := by
    simp [Account.Update, GoError.exactly, hval]
  have hE : (Account.Update errMsg (Except.ok u) validateStruct (Except.ok i)
      (fun _ _ => some (GoError.exactly .ErrEmailAlreadyExist mE)) :
      Response View VErr × List (ID × U)).1
      = ⟨StatusBadRequest,
         .fields [("accounts", errMsg .ErrEmailAlreadyExist)]⟩ := by
    simp [Account.Update, GoError.exactly, hval]
  refine ⟨hU, hE, ?_⟩
  rw [hU, hE]
  simpa using hmsg

/-- Witness for C8 at concrete collaborators with distinct messages. -/
theorem update_username_email_conflict_distinct_witness :
    (Account.Update
        (fun k => if k == ErrKind.ErrUsernameAlreadyExist then "u" else "e")
        (Except.ok ()) (fun _ => none) (Except.ok 1)
        (fun _ _ => some (GoError.exactly .ErrUsernameAlreadyExist "u")) :
        Response Unit Unit × List (Nat × Unit)).1
      = ⟨StatusBadRequest, .fields [("accounts", "u")]⟩ ∧
    (Account.Update
        (fun k => if k == ErrKind.ErrUsernameAlreadyExist then "u" else "e")
        (Except.ok ()) (fun _ => none) (Except.ok 1)
        (fun _ _ => some (GoError.exactly .ErrEmailAlreadyExist "e")) :
        Response Unit Unit × List (Nat × Unit)).1
      = ⟨StatusBadRequest, .fields [("accounts", "e")]⟩ ∧
    ((Account.Update
        (fun k => if k == ErrKind.ErrUsernameAlreadyExist then "u" else "e")
        (Except.ok ()) (fun _ => none) (Except.ok 1)
        (fun _ _ => some (GoError.exactly .ErrUsernameAlreadyExist "u")) :
        Response Unit Unit × List (Nat × Unit)).1.body
      ≠ (Account.Update
          (fun k => if k == ErrKind.ErrUsernameAlreadyExist then "u" else "e")
          (Except.ok ()) (fun _ => none) (Except.ok 1)
          (fun _ _ => some (GoError.exactly .ErrEmailAlreadyExist "e")) :
          Response Unit Unit × List (Nat × Unit)).1.body) :=
  update_username_email_conflict_distinct
    (fun k => if k == ErrKind.ErrUsernameAlreadyExist then "u" else "e")
    (Except.ok ()) (fun _ => none) (Except.ok 1) () 1 "u" "e"
    rfl rfl rfl (by decide)

/-- C9: the field keys of error responses are inconsistent: Register's
Conflict response is keyed `account` (singular), every domain-error
BadRequest of Update and Delete is keyed `accounts` (plural), and the
parse-failure responses of Register and Update are keyed `body`. -/
theorem response_field_key_inconsistency {ID View VErr U O : Type}
    (errMsg : ErrKind → String) (req : RegisterUser O) (u : U) (i : ID)
    (validateStructR : RegisterUser O → Option VErr)
    (validateStructU : U → Option VErr) (m : String)
    (hvalR : validateStructR req = none) (hvalU : validateStructU u = none) :
    ((Account.Register errMsg (Except.ok req) validateStructR
        (fun _ => some (GoError.exactly .ErrAccountExist m)) :
        Response View VErr × List (RegisterUser O)).1.body.fieldKeys
      = ["account"]) ∧
    (∀ k ∈ Account.updateDomainKinds,
      (Account.Update errMsg (Except.ok u) validateStructU (Except.ok i)
          (fun _ _ => some (GoError.exactly k m)) :
          Response View VErr × List (ID × U)).1.body.fieldKeys
        = ["accounts"]) ∧
    ((Account.Delete errMsg (Except.ok i)
        (fun _ => some (GoError.exactly .ErrAccountNotRegistered m)) :
        Response View VErr × List ID).1.body.fieldKeys = ["accounts"]) ∧
    ((Account.Register errMsg (Except.error ()) validateStructR
        (fun _ => none) :
        Response View VErr × List (RegisterUser O)).1.body.fieldKeys
      = ["body"]) ∧
    ((Account.Update errMsg (Except.error ()) validateStructU (Except.ok i)
        (fun _ _ => none) :
        Response View VErr × List (ID × U)).1.body.fieldKeys = ["body"]) ∧
    "account" ≠ "accounts" := by
  refine ⟨?_, ?_, ?_, ?_, ?_, by decide⟩
  · simp [Account.Register, hvalR, GoError.exactly, RespBody.fieldKeys]
  · intro k hk
    simp only [Account.updateDomainKinds, List.mem_cons,
      List.not_mem_nil, or_false] at hk
    rcases hk with rfl | rfl | rfl | rfl | rfl | rfl | rfl | rfl <;>
      simp [Account.Update, hvalU, GoError.exactly, RespBody.fieldKeys]
  · simp [Account.Delete, GoError.exactly, RespBody.fieldKeys]
  · rfl
  · rfl

/-- Witness for C9 at concrete collaborators. -/
theorem response_field_key_inconsistency_witness :
    ((Account.Register (fun _ => "m") (Except.ok ⟨"a", 0⟩)
        (fun _ : RegisterUser Nat => none)
        (fun _ => some (GoError.exactly .ErrAccountExist "m")) :
        Response Unit Unit × List (RegisterUser Nat)).1.body.fieldKeys
      = ["account"]) ∧
    ((Account.Update (fun _ => "m") (Except.ok ()) (fun _ => none)
        (Except.ok 1)
        (fun _ _ => some (GoError.exactly .ErrEmailAlreadyExist "m")) :
        Response Unit Unit × List (Nat × Unit)).1.body.fieldKeys
      = ["accounts"]) ∧
    "account" ≠ "accounts" :=
  ⟨(@response_field_key_inconsistency Nat Unit Unit Unit Nat (fun _ => "m")
      ⟨"a", 0⟩ () 1 (fun _ => none) (fun _ => none) "m" rfl rfl).1,
   (@response_field_key_inconsistency Nat Unit Unit Unit Nat (fun _ => "m")
      ⟨"a", 0⟩ () 1 (fun _ => none) (fun _ => none) "m" rfl rfl).2.1
     ErrKind.ErrEmailAlreadyExist (by simp [Account.updateDomainKinds]),
   (@response_field_key_inconsistency Nat Unit Unit Unit Nat (fun _ => "m")
      ⟨"a", 0⟩ () 1 (fun _ => none) (fun _ => none) "m" rfl rfl).2.2.2.2.2⟩

/-- C10: every operation invokes its service method at most once per
request, and invokes it zero times whenever a preceding step — token
extraction, JSON binding, or structural validation — fails. -/
theorem service_invoked_at_most_once {ID View VErr U O : Type}
    (errMsg : ErrKind → String)
    (extractG extractU extractD : Except Unit ID)
    (take : ID → Except GoError View)
    (bindR : Except Unit (RegisterUser O))
    (valR : RegisterUser O → Option VErr)
    (create : RegisterUser O → Option GoError)
    (bindU : Except Unit U) (valU : U → Option VErr)
    (svcUpd : ID → U → Option GoError) (svcDel : ID → Option GoError) :
    ((Account.Get extractG take :
        Response View VErr × List ID).2.length ≤ 1) ∧
    ((Account.Register errMsg bindR valR create :
        Response View VErr × List (RegisterUser O)).2.length ≤ 1) ∧
    ((Account.Update errMsg bindU valU extractU svcUpd :
        Response View VErr × List (ID × U)).2.length ≤ 1) ∧
    ((Account.Delete errMsg extractD svcDel :
        Response View VErr × List ID).2.length ≤ 1) ∧
    (extractG = Except.error () →
      (Account.Get extractG take : Response View VErr × List ID).2 = []) ∧
    (bindR = Except.error () →
      (Account.Register errMsg bindR valR create :
        Response View VErr × List (RegisterUser O)).2 = []) ∧
    (∀ (r : RegisterUser O) (e : VErr), bindR = Except.ok r →
      valR r = some e →
      (Account.Register errMsg bindR valR create :
        Response View VErr × List (RegisterUser O)).2 = []) ∧
    (bindU = Except.error () →
      (Account.Update errMsg bindU valU extractU svcUpd :
        Response View VErr × List (ID × U)).2 = []) ∧
    (∀ (v : U) (e : VErr), bindU = Except.ok v → valU v = some e →
      (Account.Update errMsg bindU valU extractU svcUpd :
        Response View VErr × List (ID × U)).2 = []) ∧
    (∀ v : U, bindU = Except.ok v → valU v = none →
      extractU = Except.error () →
      (Account.Update errMsg bindU valU extractU svcUpd :
        Response View VErr × List (ID × U)).2 = []) ∧
    (extractD = Except.error () →
      (Account.Delete errMsg extractD svcDel :
        Response View VErr × List ID).2 = []) := by
  refine ⟨?_, ?_, ?_, ?_, ?_, ?_, ?_, ?_, ?_, ?_, ?_⟩
  · simp only [Account.Get]
    repeat' split
    all_goals simp
  · simp only [Account.Register]
    repeat' split
    all_goals simp
  · simp only [Account.Update]
    repeat' split
    all_goals simp
  · simp only [Account.Delete]
    repeat' split
    all_goals simp
  · rintro rfl; rfl
  · rintro rfl; rfl
  · rintro r e rfl hv; simp [Account.Register, hv]
  · rintro rfl; rfl
  · rintro v e rfl hv; simp [Account.Update, hv]
  · rintro v rfl hv rfl; simp [Account.Update, hv]
  · rintro rfl; rfl

/-- Witness for C10 at concrete collaborators: an Update whose body
fails validation performs no service call. -/
theorem service_invoked_at_most_once_witness :
    ((Account.Get (Except.ok 4) (fun i : Nat => Except.ok i) :
        Response Nat Unit × List Nat).2.length ≤ 1) ∧
    ((Account.Update (fun _ => "m") (Except.ok ()) (fun _ => some ())
        (Except.ok 4) (fun _ _ => none) :
        Response Nat Unit × List (Nat × Unit)).2 = []) :=
  ⟨(@service_invoked_at_most_once Nat Nat Unit Unit Unit (fun _ => "m")
      (Except.ok 4) (Except.ok 4) (Except.ok 4) (fun i => Except.ok i)
      (Except.ok ⟨"a", ()⟩) (fun _ => none) (fun _ => none)
      (Except.ok ()) (fun _ => some ()) (fun _ _ => none)
      (fun _ => none)).1,
   (@service_invoked_at_most_once Nat Nat Unit Unit Unit (fun _ => "m")
      (Except.ok 4) (Except.ok 4) (Except.ok 4) (fun i => Except.ok i)
      (Except.ok ⟨"a", ()⟩) (fun _ => none) (fun _ => none)
      (Except.ok ()) (fun _ => some ()) (fun _ _ => none)
      (fun _ => none)).2.2.2.2.2.2.2.2.1 () () rfl rfl⟩

end GoRestApi
